import Mathlib

/-!
Verification of the Station TV report-assembly pipeline
(`export/html_reporter.py` and `qos/reporter.py`) against its
natural-language specification.

The Python code is shallowly embedded:
* Python `str` values are Lean `String`s; where the SRT parser needs
  character-level reasoning, strings are handled as `List Char`.
* Python floats are embedded as rationals (`ℚ`).  The Batteries rational
  arithmetic operations are `@[irreducible]`, so kernel-reducible
  equivalents (`qadd`, `qsub`, `qmul`, `qdiv`) are defined via `mkRat`
  and proved equal to the ordinary field operations.
* Filesystem reads are passed in explicitly: a file that is missing or
  unreadable is `none`, a successful read is `some content`.  Calls to
  `datetime.now()` are passed in as explicit string parameters (one per
  call site).
* A Python function that returns `False` after catching an exception is
  embedded as a function returning `none` / `false`.
-/

/-! ## Kernel-reducible rational arithmetic -/

/-- Rational addition computed through `mkRat` (definitionally reducible,
unlike the `@[irreducible]` `Rat.add`). -/
def qadd (a b : ℚ) : ℚ := mkRat (a.num * b.den + b.num * a.den) (a.den * b.den)

/-- Rational subtraction computed through `mkRat`. -/
def qsub (a b : ℚ) : ℚ := mkRat (a.num * b.den - b.num * a.den) (a.den * b.den)

/-- Rational multiplication computed through `mkRat`. -/
def qmul (a b : ℚ) : ℚ := mkRat (a.num * b.num) (a.den * b.den)

/-- Rational division computed through `Rat.divInt`; division by zero
yields zero, matching `Rat` conventions (never reached by the embedded
code, which guards the divisors). -/
def qdiv (a b : ℚ) : ℚ := Rat.divInt (a.num * b.den) (a.den * b.num)

theorem qadd_eq (a b : ℚ) : qadd a b = a + b := (Rat.add_def' a b).symm

theorem qsub_eq (a b : ℚ) : qsub a b = a - b := (Rat.sub_def' a b).symm

theorem qmul_eq (a b : ℚ) : qmul a b = a * b := by
  rw [qmul, Rat.mul_def, Rat.normalize_eq_mkRat]

theorem qdiv_eq (a b : ℚ) : qdiv a b = a / b := by
  rw [qdiv, div_eq_mul_inv]
  conv_rhs => rw [← Rat.num_divInt_den a, ← Rat.num_divInt_den b]
  rw [Rat.inv_divInt', Rat.divInt_mul_divInt']

/-- Sum of a list of rationals, via `qadd`. -/
def qsum (l : List ℚ) : ℚ := l.foldr qadd 0

theorem qsum_eq (l : List ℚ) : qsum l = l.sum := by
  induction l with
  | nil => rfl
  | cons x xs ih => simp [qsum, List.sum_cons, qadd_eq] at ih ⊢; rw [ih]

/-- Floor of a rational, computed from its numerator and denominator. -/
def qfloor (x : ℚ) : Int := x.num / (x.den : Int)

/-- Round-half-to-even on rationals: the rounding Python's `format`
applies to exactly representable values. -/
def roundHalfEven (x : ℚ) : Int :=
  let f := qfloor x
  let r := qsub x (mkRat f 1)
  if r < mkRat 1 2 then f
  else if mkRat 1 2 < r then f + 1
  else if f % 2 = 0 then f else f + 1

/-- Embedding of Python's fixed-point float formatting `f"{x:.prec f}"`
on rationals: round-half-even at `prec` decimal digits, then print with
exactly `prec` digits after the decimal point. -/
def fmtFixed (prec : Nat) (x : ℚ) : String :=
  let n := roundHalfEven (qmul x (mkRat (10 ^ prec : Nat) 1))
  let m := n.natAbs
  let ip := m / 10 ^ prec
  let fp := m % 10 ^ prec
  let fpS := toString fp
  let pad := String.mk (List.replicate (prec - fpS.length) '0')
  (if n < 0 then "-" else "") ++ toString ip ++
    (if prec = 0 then "" else "." ++ pad ++ fpS)

/-! ## Python string primitives (on `List Char`) -/

/-- Characters stripped by Python's `str.strip()` (the ASCII whitespace
relevant to the embedded inputs). -/
def pyIsWS (c : Char) : Bool :=
  c = ' ' || c = '\t' || c = '\n' || c = '\r' || c = '\x0b' || c = '\x0c'

/-- Python `str.strip()`: drop leading and trailing whitespace. -/
def pyStrip (l : List Char) : List Char :=
  ((l.dropWhile pyIsWS).reverse.dropWhile pyIsWS).reverse

/-- Prepend a character to the first piece of a split result (helper for
the split functions below). -/
def consHead (c : Char) : List (List Char) → List (List Char)
  | [] => [[c]]
  | p :: ps => (c :: p) :: ps

/-- Python `str.split("\n\n")`: split on each non-overlapping, leftmost
occurrence of two consecutive newlines. -/
def splitNN : List Char → List (List Char)
  | [] => [[]]
  | [c] => [[c]]
  | c1 :: c2 :: rest =>
    if c1 = '\n' ∧ c2 = '\n' then [] :: splitNN rest
    else consHead c1 (splitNN (c2 :: rest))

/-- Python `str.split("\n")`: split on each newline. -/
def splitN : List Char → List (List Char)
  | [] => [[]]
  | c :: rest => if c = '\n' then [] :: splitN rest else consHead c (splitN rest)

/-- Whether a character list contains two consecutive newlines. -/
def hasNN : List Char → Bool
  | [] => false
  | [_] => false
  | c1 :: c2 :: rest => (c1 = '\n' && c2 = '\n') || hasNN (c2 :: rest)

/-- Python `" ".join(lines)`. -/
def joinSpace (ls : List (List Char)) : List Char :=
  match ls with
  | [] => []
  | l :: rest => rest.foldl (fun acc p => acc ++ ' ' :: p) l

/-! ## TimedTextParser: `HTMLTranscriptionReporter._parse_srt_file` -/

/-- One subtitle segment, as built by `_parse_srt_file`: the block's
first line, second line, and remaining lines joined by single spaces. -/
structure Segment where
  index : String
  timestamps : String
  text : String
  deriving Repr, DecidableEq

/-- Embedding of the body of `_parse_srt_file` (which never raises: a
read failure is modelled by the caller passing no content): split the
stripped content on blank-line separators, keep each block with at least
3 lines, and build a segment from its stripped lines. -/
def parseSrt (content : String) : List Segment :=
  (splitNN (pyStrip content.data)).filterMap (fun block =>
    let lines := splitN (pyStrip block)
    if 3 ≤ lines.length then
      some ⟨String.mk (lines.getD 0 []), String.mk (lines.getD 1 []),
        String.mk (joinSpace (lines.drop 2))⟩
    else none)

/-- Spec-side parser, following the specification's words: a block
qualifies only if it has at least 3 non-empty lines after trimming;
line 1 is the index, line 2 the time range, the remaining non-empty
lines joined with single spaces form the text. -/
def parseSrtSpec (content : String) : List Segment :=
  (splitNN (pyStrip content.data)).filterMap (fun block =>
    let lines := (splitN (pyStrip block)).filter (fun p => !p.isEmpty)
    if 3 ≤ lines.length then
      some ⟨String.mk (lines.getD 0 []), String.mk (lines.getD 1 []),
        String.mk (joinSpace (lines.drop 2))⟩
    else none)

example : parseSrt "1\n00:00 -> 00:05\nBonjour\nle monde\n\n2\n00:05 -> 00:09\nsuite" =
    [⟨"1", "00:00 -> 00:05", "Bonjour le monde"⟩, ⟨"2", "00:05 -> 00:09", "suite"⟩] := by
  decide

example : parseSrt "1\n00:00\n\n\nreste" = [] := by decide


/-! ## Correctness development for the SRT parser (Claim C2) -/

theorem consHead_ne_nil (c : Char) (l : List (List Char)) : consHead c l ≠ [] := by
  cases l <;> simp [consHead]

theorem splitNN_ne_nil (l : List Char) : splitNN l ≠ [] := by
  induction l using splitNN.induct with
  | case1 => simp [splitNN]
  | case2 c => simp [splitNN]
  | case3 c1 c2 rest h ih => simp [splitNN, if_pos h]
  | case4 c1 c2 rest h ih => simp [splitNN, if_neg h, consHead_ne_nil]

theorem splitN_ne_nil (l : List Char) : splitN l ≠ [] := by
  induction l using splitN.induct with
  | case1 => simp [splitN]
  | case2 rest ih => simp [splitN]
  | case3 c rest h ih => simp [splitN, if_neg h, consHead_ne_nil]

theorem splitNN_head_eq (l : List Char) (p : List Char) (ps : List (List Char))
    (h : splitNN l = p :: ps) (hp : p ≠ []) : p.head? = l.head? := by
  match l with
  | [] => simp [splitNN] at h; simp [h.1] at hp
  | [c] => simp [splitNN] at h; simp [← h.1]
  | c1 :: c2 :: rest =>
    by_cases hc : c1 = '\n' ∧ c2 = '\n'
    · simp only [splitNN, if_pos hc] at h
      simp [← (List.cons.injEq _ _ _ _ |>.mp h).1] at hp
    · simp only [splitNN, if_neg hc] at h
      obtain ⟨q, qs, hq⟩ := List.exists_cons_of_ne_nil (splitNN_ne_nil (c2 :: rest))
      rw [hq] at h
      simp only [consHead] at h
      simp [← (List.cons.injEq _ _ _ _ |>.mp h).1]

theorem splitN_head_eq (l : List Char) (p : List Char) (ps : List (List Char))
    (h : splitN l = p :: ps) (hp : p ≠ []) : p.head? = l.head? := by
  match l with
  | [] => simp [splitN] at h; simp [h.1] at hp
  | c :: rest =>
    by_cases hc : c = '\n'
    · simp only [splitN, if_pos hc] at h
      simp [← (List.cons.injEq _ _ _ _ |>.mp h).1] at hp
    · simp only [splitN, if_neg hc] at h
      obtain ⟨q, qs, hq⟩ := List.exists_cons_of_ne_nil (splitN_ne_nil rest)
      rw [hq] at h
      simp only [consHead] at h
      simp [← (List.cons.injEq _ _ _ _ |>.mp h).1]

theorem hasNN_cons_cons (c1 c2 : Char) (rest : List Char) :
    hasNN (c1 :: c2 :: rest) = ((c1 = '\n' && c2 = '\n') || hasNN (c2 :: rest)) := by
  simp [hasNN]

theorem hasNN_iff (l : List Char) :
    hasNN l = true ↔ ∃ s t, l = s ++ '\n' :: '\n' :: t := by
  induction l using hasNN.induct with
  | case1 =>
    simp only [hasNN]
    constructor
    · intro h; exact Bool.noConfusion h
    · rintro ⟨s, t, hst⟩; exact absurd hst.symm (by simp)
  | case2 c =>
    simp only [hasNN]
    constructor
    · intro h; exact Bool.noConfusion h
    · rintro ⟨s, t, hst⟩
      cases s with
      | nil => simp at hst
      | cons a s' =>
        injection hst with h1 h2
        exact absurd h2.symm (by simp)
  | case3 c1 c2 rest ih =>
    rw [hasNN_cons_cons, Bool.or_eq_true, Bool.and_eq_true,
      decide_eq_true_eq, decide_eq_true_eq, ih]
    constructor
    · rintro (⟨h1, h2⟩ | ⟨s, t, hst⟩)
      · exact ⟨[], rest, by simp [h1, h2]⟩
      · exact ⟨c1 :: s, t, by simp [hst]⟩
    · rintro ⟨s, t, hst⟩
      cases s with
      | nil =>
        left
        rw [List.nil_append] at hst
        injection hst with h1 h2
        injection h2 with h2 h3
        exact ⟨h1, h2⟩
      | cons a s' =>
        right
        injection hst with h1 h2
        exact ⟨s', t, h2⟩

theorem hasNN_false_mono (l1 l2 : List Char) (hinf : l1 <:+: l2)
    (h2 : hasNN l2 = false) : hasNN l1 = false := by
  by_contra hcon
  obtain ⟨u, v, huv⟩ := (hasNN_iff l1).mp (Bool.not_eq_false _ |>.mp hcon)
  obtain ⟨s, t, hst⟩ := hinf
  have : hasNN l2 = true := (hasNN_iff l2).mpr
    ⟨s ++ u, v ++ t, by rw [← hst, huv]; simp⟩
  rw [this] at h2
  exact Bool.noConfusion h2

theorem splitNN_pieces (l : List Char) : ∀ p ∈ splitNN l, hasNN p = false := by
  induction l using splitNN.induct with
  | case1 => intro p hp; simp [splitNN] at hp; simp [hp, hasNN]
  | case2 c => intro p hp; simp [splitNN] at hp; simp [hp, hasNN]
  | case3 c1 c2 rest h ih =>
    intro p hp
    simp only [splitNN, if_pos h] at hp
    rcases List.mem_cons.mp hp with hp | hp
    · simp [hp, hasNN]
    · exact ih p hp
  | case4 c1 c2 rest h ih =>
    intro p hp
    simp only [splitNN, if_neg h] at hp
    obtain ⟨q, qs, hq⟩ := List.exists_cons_of_ne_nil (splitNN_ne_nil (c2 :: rest))
    rw [hq] at hp
    simp only [consHead] at hp
    rcases List.mem_cons.mp hp with hp | hp
    · subst hp
      have hqNN : hasNN q = false := ih q (hq ▸ List.mem_cons_self q qs)
      cases q with
      | nil => simp [hasNN]
      | cons d q' =>
        have hd : d = c2 := by
          have hhead := splitNN_head_eq (c2 :: rest) (d :: q') qs (by rw [hq]) (by simp)
          simpa using hhead
        rw [hasNN_cons_cons, Bool.or_eq_false_iff]
        refine ⟨?_, hqNN⟩
        subst hd
        simp only [Bool.and_eq_false_iff]
        by_cases hc1 : c1 = '\n'
        · right
          simp only [decide_eq_false_iff_not]
          intro hc2
          exact h ⟨hc1, hc2⟩
        · left
          simp [hc1]
    · exact ih p (hq ▸ List.mem_cons_of_mem q hp)

theorem splitN_first_ne_nil (l : List Char) (hl : l ≠ []) (hh : l.head? ≠ some '\n')
    (p : List Char) (ps : List (List Char)) (h : splitN l = p :: ps) : p ≠ [] := by
  match l with
  | [] => exact absurd rfl hl
  | c :: rest =>
    have hc : ¬c = '\n' := by simpa using hh
    simp only [splitN, if_neg hc] at h
    obtain ⟨q, qs, hq⟩ := List.exists_cons_of_ne_nil (splitN_ne_nil rest)
    rw [hq] at h
    simp only [consHead] at h
    rw [← (List.cons.injEq _ _ _ _ |>.mp h).1]
    simp

theorem splitN_tail_ne_nil (l : List Char) :
    hasNN l = false → l.getLast? ≠ some '\n' → ∀ p ∈ (splitN l).tail, p ≠ [] := by
  induction l using splitN.induct with
  | case1 => intro _ _ p hp; simp [splitN] at hp
  | case2 rest ih =>
    intro hNN hlast p hp
    have hsplit : splitN ('\n' :: rest) = [] :: splitN rest := by simp [splitN]
    rw [hsplit, List.tail_cons] at hp
    cases rest with
    | nil => simp at hlast
    | cons d r' =>
      rw [hasNN_cons_cons] at hNN
      simp only [Bool.or_eq_false_iff, Bool.and_eq_false_iff] at hNN
      have hd : ¬d = '\n' := by
        rcases hNN.1 with h | h
        · simp at h
        · simpa using h
      rw [List.getLast?_cons_cons] at hlast
      obtain ⟨q, qs, hq⟩ := List.exists_cons_of_ne_nil (splitN_ne_nil (d :: r'))
      rw [hq] at hp
      rcases List.mem_cons.mp hp with hp | hp
      · subst hp
        exact splitN_first_ne_nil (d :: r') (by simp) (by simpa using hd) p qs hq
      · refine ih hNN.2 hlast p ?_
        rw [hq]
        simpa using hp
  | case3 c rest h ih =>
    intro hNN hlast p hp
    simp only [splitN, if_neg h] at hp
    obtain ⟨q, qs, hq⟩ := List.exists_cons_of_ne_nil (splitN_ne_nil rest)
    rw [hq] at hp
    simp only [consHead, List.tail_cons] at hp
    cases rest with
    | nil => rw [show splitN ([] : List Char) = [[]] from rfl] at hq; injection hq with h1 h2; rw [← h2] at hp; simp at hp
    | cons d r' =>
      rw [hasNN_cons_cons] at hNN
      simp only [Bool.or_eq_false_iff] at hNN
      rw [List.getLast?_cons_cons] at hlast
      refine ih hNN.2 hlast p ?_
      rw [hq]
      simpa using hp

theorem splitN_all_ne_nil (l : List Char) (hne : l ≠ []) (hNN : hasNN l = false)
    (hh : l.head? ≠ some '\n') (hlast : l.getLast? ≠ some '\n') :
    ∀ p ∈ splitN l, p ≠ [] := by
  intro p hp
  obtain ⟨q, qs, hq⟩ := List.exists_cons_of_ne_nil (splitN_ne_nil l)
  rw [hq] at hp
  rcases List.mem_cons.mp hp with hp | hp
  · subst hp
    exact splitN_first_ne_nil l hne hh p qs hq
  · refine splitN_tail_ne_nil l hNN hlast p ?_
    rw [hq]
    simpa using hp

theorem dropWhile_head_false (p : Char → Bool) (l : List Char) (c : Char) (t : List Char)
    (h : l.dropWhile p = c :: t) : p c = false := by
  induction l with
  | nil => simp [List.dropWhile] at h
  | cons a l' ih =>
    rw [List.dropWhile_cons] at h
    split at h
    · exact ih h
    · next hpa =>
      injection h with h1 _
      subst h1
      exact Bool.not_eq_true _ |>.mp hpa

theorem suffix_getLast? (l1 l2 : List Char) (h : l1 <:+ l2) (hne : l1 ≠ []) :
    l2.getLast? = l1.getLast? := by
  obtain ⟨s, hs⟩ := h
  obtain ⟨q, qs, hq⟩ := List.exists_cons_of_ne_nil hne
  rw [← hs, List.getLast?_append, hq]
  cases hlast : (q :: qs).getLast? with
  | none => simp at hlast
  | some x => simp [Option.or]

theorem pyStrip_head_not_ws (l : List Char) (c : Char)
    (h : (pyStrip l).head? = some c) : pyIsWS c = false := by
  unfold pyStrip at h
  rw [List.head?_reverse] at h
  have hmne : (l.dropWhile pyIsWS).reverse.dropWhile pyIsWS ≠ [] := by
    intro hc
    rw [hc] at h
    simp at h
  have := suffix_getLast? _ _ (List.dropWhile_suffix (l := (l.dropWhile pyIsWS).reverse) pyIsWS) hmne
  rw [← this, List.getLast?_reverse] at h
  obtain ⟨q, qs, hq⟩ := List.exists_cons_of_ne_nil
    (show l.dropWhile pyIsWS ≠ [] by intro hc; rw [hc] at h; simp at h)
  rw [hq] at h
  simp only [List.head?_cons, Option.some.injEq] at h
  rw [← h]
  exact dropWhile_head_false pyIsWS l q qs hq

theorem pyStrip_last_not_ws (l : List Char) (c : Char)
    (h : (pyStrip l).getLast? = some c) : pyIsWS c = false := by
  unfold pyStrip at h
  rw [List.getLast?_reverse] at h
  obtain ⟨q, qs, hq⟩ := List.exists_cons_of_ne_nil
    (show (l.dropWhile pyIsWS).reverse.dropWhile pyIsWS ≠ [] by
      intro hc; rw [hc] at h; simp at h)
  rw [hq] at h
  simp only [List.head?_cons, Option.some.injEq] at h
  rw [← h]
  exact dropWhile_head_false pyIsWS _ q qs hq

theorem pyStrip_isInfix (l : List Char) : pyStrip l <:+: l := by
  unfold pyStrip
  have h1 : l.dropWhile pyIsWS <:+ l := List.dropWhile_suffix pyIsWS
  have h2 : (l.dropWhile pyIsWS).reverse.dropWhile pyIsWS <:+ (l.dropWhile pyIsWS).reverse :=
    List.dropWhile_suffix pyIsWS
  rw [show (l.dropWhile pyIsWS).reverse.dropWhile pyIsWS =
      ((l.dropWhile pyIsWS).reverse.dropWhile pyIsWS).reverse.reverse from
      (List.reverse_reverse _).symm] at h2
  have h3 := List.reverse_suffix.mp h2
  exact h3.isInfix.trans h1.isInfix

/-- Claim C2: the SRT parser splits the stripped content into blocks on
the blank-line (double newline) separator, keeps exactly the blocks with
at least 3 non-empty lines after trimming, silently drops the others,
and builds one segment per qualifying block in source order with
index = line 1, time range = line 2, and text = the remaining lines
joined by single spaces: the code parser equals the spec parser on every
input. -/
theorem parseSrt_eq_parseSrtSpec (content : String) :
    parseSrt content = parseSrtSpec content := by
  unfold parseSrt parseSrtSpec
  refine List.filterMap_congr ?_
  intro b hb
  have hNNb : hasNN b = false := splitNN_pieces _ b hb
  by_cases hs : pyStrip b = []
  · rw [hs]
    simp [splitN]
  · have hall : ∀ p ∈ splitN (pyStrip b), (!p.isEmpty) = true := by
      intro p hp
      have hne := splitN_all_ne_nil (pyStrip b) hs
        (hasNN_false_mono _ _ (pyStrip_isInfix b) hNNb)
        (fun hcon => by
          have := pyStrip_head_not_ws b '\n' hcon
          simp [pyIsWS] at this)
        (fun hcon => by
          have := pyStrip_last_not_ws b '\n' hcon
          simp [pyIsWS] at this)
        p hp
      simpa using hne
    rw [List.filter_eq_self.mpr hall]

/-! ## MetricsAggregator: CSV model and `generate_report` metrics -/

/-- A parsed CSV table as `pandas.read_csv` yields it: named numeric
columns (column-oriented; a well-formed table is rectangular). -/
structure DataFrame where
  cols : List (String × List ℚ)
  deriving Repr, DecidableEq

/-- Column access `df[name]`: `none` models the `KeyError` raised when
the column is absent. -/
def DataFrame.getCol (df : DataFrame) (name : String) : Option (List ℚ) :=
  (df.cols.find? (fun c => c.1 = name)).map (fun c => c.2)

/-- `len(df)`: the number of data rows. -/
def DataFrame.nrows (df : DataFrame) : Nat :=
  match df.cols with
  | [] => 0
  | c :: _ => c.2.length

/-- `df.empty` in pandas: true when an axis has length zero. -/
def DataFrame.pdEmpty (df : DataFrame) : Bool :=
  df.cols.isEmpty || df.nrows = 0

/-- Python `f"{series.mean():.1f}"`: the mean of an empty series is NaN,
which formats as `"nan"`. -/
def meanFmt1 (vs : List ℚ) : String :=
  if vs.length = 0 then "nan"
  else fmtFixed 1 (qdiv (qsum vs) (mkRat (vs.length : Int) 1))

/-- The metrics dictionary consumed by the HTML template
(`metrics.get(key, 'N/A')`); a missing key is `none`. -/
structure MetricsDict where
  audio_duration : Option String
  processing_time : Option String
  throughput : Option String
  cpu_avg : Option String
  memory_avg : Option String
  energy_total : Option String
  deriving Repr, DecidableEq

/-- One conditional entry of the metrics dict: `f"{df[col].mean():.1f}%"`,
raising (`.error`) when the column is missing. -/
def seriesAvgFmt (df : DataFrame) (col : String) : Except Unit String :=
  match df.getCol col with
  | none => Except.error ()
  | some vs => Except.ok (meanFmt1 vs ++ "%")

/-- Embedding of the metrics-dict construction in
`HTMLTranscriptionReporter.generate_report` (lines 622-629).  Evaluation
order matches the Python dict literal: the `cpu_avg` entry first, then
`memory_avg`, then `energy_total`; an uncaught `KeyError` (missing
column on a successfully read CSV) is `.error ()`, which the caller's
outer handler turns into overall failure. -/
def computeMetrics (cpuDf memDf powDf : Option DataFrame) : Except Unit MetricsDict := do
  let cpu_avg ← match cpuDf with
    | some df => seriesAvgFmt df "CPU_Usage_Percent"
    | none => Except.ok "N/A"
  let memory_avg ← match memDf with
    | some df => seriesAvgFmt df "Memory_Usage_Percent"
    | none => Except.ok "N/A"
  let energy_total ← match powDf with
    | some df =>
      if 0 < df.nrows then
        match df.getCol "Energy_kWh" with
        | none => Except.error ()
        | some vs => Except.ok (fmtFixed 3 (vs.getLastD 0) ++ " kWh")
      else Except.ok "N/A"
    | none => Except.ok "N/A"
  Except.ok { audio_duration := some "N/A", processing_time := some "N/A", throughput := some "N/A", cpu_avg := some cpu_avg, memory_avg := some memory_avg, energy_total := some energy_total }

/-- The metadata dictionary built by `generate_report` (lines 639-644). -/
structure ReportMetadata where
  filename : Option String
  model : Option String
  language : Option String
  date : Option String
  deriving Repr, DecidableEq

/-- Embedding of the metadata construction: constant model `'small'` and
language `'fr'`; the date is the formatted wall-clock reading
(`datetime.now().strftime("%d/%m/%Y %H:%M:%S")`), passed in as
`nowMeta`. -/
def buildMetadata (audioFilename nowMeta : String) : ReportMetadata :=
  { filename := some audioFilename, model := some "small",
    language := some "fr", date := some nowMeta }

/-! ## ReportRenderer: `_generate_html_template` string constants

The constants below are the literal chunks of the Python f-string
template, in source order, split at the interpolation slots. -/

def segItem1 : String :=
  "\n            <div class=\"segment\">\n                <div class=\"segment-time\">"

def segItem2 : String :=
  "</div>\n                <div class=\"segment-text\">"

def segItem3 : String :=
  "</div>\n            </div>\n            "
def graphItem1 : String :=
  "\n                <div class=\"graph-container\">\n                    <img src=\""

def graphItem2 : String :=
  "\" alt=\""

def graphItem3 : String :=
  "\" class=\"graph-image\">\n                </div>\n                "
def cards1 : String :=
  "\n        <div class=\"metrics-grid\">\n            <div class=\"metric-card\">\n                <div class=\"metric-label\">Durée Audio</div>\n                <div class=\"metric-value\">"

def cards2 : String :=
  "</div>\n            </div>\n            <div class=\"metric-card\">\n                <div class=\"metric-label\">Temps de Traitement</div>\n                <div class=\"metric-value\">"

def cards3 : String :=
  "</div>\n            </div>\n            <div class=\"metric-card\">\n                <div class=\"metric-label\">Throughput</div>\n                <div class=\"metric-value\">"

def cards4 : String :=
  "</div>\n            </div>\n            <div class=\"metric-card\">\n                <div class=\"metric-label\">CPU Moyen</div>\n                <div class=\"metric-value\">"

def cards5 : String :=
  "</div>\n            </div>\n            <div class=\"metric-card\">\n                <div class=\"metric-label\">RAM Moyenne</div>\n                <div class=\"metric-value\">"

def cards6 : String :=
  "</div>\n            </div>\n            <div class=\"metric-card\">\n                <div class=\"metric-label\">Énergie Totale</div>\n                <div class=\"metric-value\">"

def cards7 : String :=
  "</div>\n            </div>\n        </div>\n        "
def htmlT1 : String :=
  "<!DOCTYPE html>\n<html lang=\"fr\">\n<head>\n    <meta charset=\"UTF-8\">\n    <meta name=\"viewport\" content=\"width=device-width, initial-scale=1.0\">\n    <title>"

def htmlT2 : String :=
  "</title>\n    <link href=\"https://fonts.googleapis.com/css2?family=Inter:wght@300;400;600;700&display=swap\" rel=\"stylesheet\">\n    <style>\n        * \x7b\n            margin: 0;\n            padding: 0;\n            box-sizing: border-box;\n        \x7d\n        \n        :root \x7b\n            \x2d\x2dbg-primary: #0f172a;\n            \x2d\x2dbg-secondary: #1e293b;\n            \x2d\x2dbg-tertiary: #334155;\n            \x2d\x2dtext-primary: #f1f5f9;\n            \x2d\x2dtext-secondary: #cbd5e1;\n            \x2d\x2daccent-primary: #3b82f6;\n            \x2d\x2daccent-secondary: #8b5cf6;\n            \x2d\x2daccent-success: #10b981;\n            \x2d\x2dshadow: 0 10px 30px rgba(0, 0, 0, 0.3);\n        \x7d\n        \n        [data-theme=\"light\"] \x7b\n            \x2d\x2dbg-primary: #ffffff;\n            \x2d\x2dbg-secondary: #f8fafc;\n            \x2d\x2dbg-tertiary: #e2e8f0;\n            \x2d\x2dtext-primary: #0f172a;\n            \x2d\x2dtext-secondary: #475569;\n        \x7d\n        \n        body \x7b\n            font-family: \x27Inter\x27, sans-serif;\n            background: linear-gradient(135deg, var(\x2d\x2dbg-primary) 0%, var(\x2d\x2dbg-secondary) 100%);\n            color: var(\x2d\x2dtext-primary);\n            line-height: 1.6;\n            min-height: 100vh;\n            padding: 2rem;\n        \x7d\n        \n        .container \x7b\n            max-width: 1400px;\n            margin: 0 auto;\n        \x7d\n        \n        header \x7b\n            background: var(\x2d\x2dbg-secondary);\n            padding: 2rem;\n            border-radius: 16px;\n            margin-bottom: 2rem;\n            box-shadow: var(\x2d\x2dshadow);\n            position: relative;\n        \x7d\n        \n        h1 \x7b\n            font-size: 2.5rem;\n            font-weight: 700;\n            background: linear-gradient(135deg, var(\x2d\x2daccent-primary), var(\x2d\x2daccent-secondary));\n            -webkit-background-clip: text;\n            -webkit-text-fill-color: transparent;\n            background-clip: text;\n            margin-bottom: 0.5rem;\n        \x7d\n        \n        .subtitle \x7b\n            color: var(\x2d\x2dtext-secondary);\n            font-size: 1rem;\n        \x7d\n        \n        .theme-toggle \x7b\n            position: absolute;\n            top: 2rem;\n            right: 2rem;\n            background: var(\x2d\x2dbg-tertiary);\n            border: none;\n            color: var(\x2d\x2dtext-primary);\n            padding: 0.75rem 1.5rem;\n            border-radius: 8px;\n            cursor: pointer;\n            font-weight: 600;\n            transition: all 0.3s;\n        \x7d\n        \n        .theme-toggle:hover \x7b\n            transform: translateY(-2px);\n            box-shadow: 0 5px 15px rgba(59, 130, 246, 0.3);\n        \x7d\n        \n        .section \x7b\n            background: var(\x2d\x2dbg-secondary);\n            padding: 2rem;\n            border-radius: 16px;\n            margin-bottom: 2rem;\n            box-shadow: var(\x2d\x2dshadow);\n        \x7d\n        \n        .section-title \x7b\n            font-size: 1.75rem;\n            font-weight: 600;\n            margin-bottom: 1.5rem;\n            color: var(\x2d\x2dtext-primary);\n            border-left: 4px solid var(\x2d\x2daccent-primary);\n            padding-left: 1rem;\n        \x7d\n        \n        .metrics-grid \x7b\n            display: grid;\n            grid-template-columns: repeat(auto-fit, minmax(200px, 1fr));\n            gap: 1.5rem;\n            margin-bottom: 2rem;\n        \x7d\n        \n        .metric-card \x7b\n            background: linear-gradient(135deg, var(\x2d\x2dbg-tertiary) 0%, var(\x2d\x2dbg-secondary) 100%);\n            padding: 1.5rem;\n            border-radius: 12px;\n            text-align: center;\n            transition: transform 0.3s, box-shadow 0.3s;\n        \x7d\n        \n        .metric-card:hover \x7b\n            transform: translateY(-5px);\n            box-shadow: 0 10px 25px rgba(59, 130, 246, 0.2);\n        \x7d\n        \n        .metric-label \x7b\n            font-size: 0.875rem;\n            color: var(\x2d\x2dtext-secondary);\n            text-transform: uppercase;\n            letter-spacing: 0.5px;\n            margin-bottom: 0.5rem;\n        \x7d\n        \n        .metric-value \x7b\n            font-size: 2rem;\n            font-weight: 700;\n            background: linear-gradient(135deg, var(\x2d\x2daccent-primary), var(\x2d\x2daccent-success));\n            -webkit-background-clip: text;\n            -webkit-text-fill-color: transparent;\n            background-clip: text;\n        \x7d\n        \n        .transcription-box \x7b\n            background: var(\x2d\x2dbg-tertiary);\n            padding: 2rem;\n            border-radius: 12px;\n            font-size: 1.1rem;\n            line-height: 1.8;\n            white-space: pre-wrap;\n            max-height: 500px;\n            overflow-y: auto;\n            position: relative;\n        \x7d\n        \n        .copy-btn \x7b\n            position: absolute;\n            top: 1rem;\n            right: 1rem;\n            background: var(\x2d\x2daccent-primary);\n            color: white;\n            border: none;\n            padding: 0.5rem 1rem;\n            border-radius: 6px;\n            cursor: pointer;\n            font-weight: 600;\n            transition: all 0.3s;\n        \x7d\n        \n        .copy-btn:hover \x7b\n            background: var(\x2d\x2daccent-secondary);\n            transform: scale(1.05);\n        \x7d\n        \n        .segment \x7b\n            background: var(\x2d\x2dbg-tertiary);\n            padding: 1rem;\n            border-radius: 8px;\n            margin-bottom: 1rem;\n            border-left: 3px solid var(\x2d\x2daccent-primary);\n            transition: all 0.3s;\n        \x7d\n        \n        .segment:hover \x7b\n            background: var(\x2d\x2dbg-primary);\n            transform: translateX(5px);\n        \x7d\n        \n        .segment-time \x7b\n            font-size: 0.875rem;\n            color: var(\x2d\x2daccent-primary);\n            font-weight: 600;\n            margin-bottom: 0.5rem;\n        \x7d\n        \n        .segment-text \x7b\n            color: var(\x2d\x2dtext-primary);\n        \x7d\n        \n        .graph-container \x7b\n            margin: 2rem 0;\n            border-radius: 12px;\n            overflow: hidden;\n            box-shadow: var(\x2d\x2dshadow);\n        \x7d\n        \n        .graph-image \x7b\n            width: 100%;\n            height: auto;\n            display: block;\n        \x7d\n        \n        .metadata-grid \x7b\n            display: grid;\n            grid-template-columns: repeat(auto-fit, minmax(250px, 1fr));\n            gap: 1rem;\n        \x7d\n        \n        .metadata-item \x7b\n            background: var(\x2d\x2dbg-tertiary);\n            padding: 1rem;\n            border-radius: 8px;\n        \x7d\n        \n        .metadata-label \x7b\n            font-size: 0.875rem;\n            color: var(\x2d\x2dtext-secondary);\n            margin-bottom: 0.25rem;\n        \x7d\n        \n        .metadata-value \x7b\n            font-weight: 600;\n            color: var(\x2d\x2dtext-primary);\n        \x7d\n        \n        .collapsible \x7b\n            cursor: pointer;\n            user-select: none;\n            display: flex;\n            align-items: center;\n            justify-content: space-between;\n        \x7d\n        \n        .collapsible::after \x7b\n            content: \x27▼\x27;\n            transition: transform 0.3s;\n        \x7d\n        \n        .collapsible.active::after \x7b\n            transform: rotate(-180deg);\n        \x7d\n        \n        .collapsible-content \x7b\n            max-height: 0;\n            overflow: hidden;\n            transition: max-height 0.3s ease-out;\n        \x7d\n        \n        .collapsible-content.active \x7b\n            max-height: 5000px;\n        \x7d\n        \n        @media (max-width: 768px) \x7b\n            body \x7b\n                padding: 1rem;\n            \x7d\n            \n            h1 \x7b\n                font-size: 2rem;\n            \x7d\n            \n            .metrics-grid \x7b\n                grid-template-columns: repeat(auto-fit, minmax(150px, 1fr));\n            \x7d\n            \n            .theme-toggle \x7b\n                position: static;\n                margin-top: 1rem;\n                width: 100%;\n            \x7d\n        \x7d\n    </style>\n</head>\n<body>\n    <div class=\"container\">\n        <header>\n            <h1>"

def htmlT3 : String :=
  "</h1>\n            <div class=\"subtitle\">Généré le "

def htmlT4 : String :=
  "</div>\n            <button class=\"theme-toggle\" onclick=\"toggleTheme()\">🌓 Changer le thème</button>\n        </header>\n        \n        <!\x2d\x2d Métriques \x2d\x2d>\n        <section class=\"section\">\n            <h2 class=\"section-title\">📊 Métriques de Performance</h2>\n            "

def htmlT5 : String :=
  "\n        </section>\n        \n        <!\x2d\x2d Métadonnées \x2d\x2d>\n        <section class=\"section\">\n            <h2 class=\"section-title\">ℹ️ Métadonnées</h2>\n            <div class=\"metadata-grid\">\n                <div class=\"metadata-item\">\n                    <div class=\"metadata-label\">Fichier Source</div>\n                    <div class=\"metadata-value\">"

def htmlT6 : String :=
  "</div>\n                </div>\n                <div class=\"metadata-item\">\n                    <div class=\"metadata-label\">Modèle Whisper</div>\n                    <div class=\"metadata-value\">"

def htmlT7 : String :=
  "</div>\n                </div>\n                <div class=\"metadata-item\">\n                    <div class=\"metadata-label\">Langue</div>\n                    <div class=\"metadata-value\">"

def htmlT8 : String :=
  "</div>\n                </div>\n                <div class=\"metadata-item\">\n                    <div class=\"metadata-label\">Date de Transcription</div>\n                    <div class=\"metadata-value\">"

def htmlT9 : String :=
  "</div>\n                </div>\n            </div>\n        </section>\n        \n        <!\x2d\x2d Texte complet \x2d\x2d>\n        <section class=\"section\">\n            <h2 class=\"section-title\">📝 Transcription Complète</h2>\n            <div class=\"transcription-box\" id=\"transcription-text\">\n                <button class=\"copy-btn\" onclick=\"copyTranscription()\">📋 Copier</button>\n"

def htmlT10 : String :=
  "\n            </div>\n        </section>\n        \n        <!\x2d\x2d Segments \x2d\x2d>\n        "

def htmlT11 : String :=
  "\n        \n        <!\x2d\x2d Graphiques \x2d\x2d>\n        "

def htmlT12 : String :=
  "\n    </div>\n    \n    <script>\n        function toggleTheme() \x7b\n            const root = document.documentElement;\n            const currentTheme = root.getAttribute(\x27data-theme\x27);\n            const newTheme = currentTheme === \x27light\x27 ? \x27dark\x27 : \x27light\x27;\n            root.setAttribute(\x27data-theme\x27, newTheme);\n            localStorage.setItem(\x27theme\x27, newTheme);\n        \x7d\n        \n        function copyTranscription() \x7b\n            const text = document.getElementById(\x27transcription-text\x27).textContent;\n            navigator.clipboard.writeText(text).then(() => \x7b\n                const btn = event.target;\n                const originalText = btn.textContent;\n                btn.textContent = \x27✓ Copié !\x27;\n                setTimeout(() => \x7b\n                    btn.textContent = originalText;\n                \x7d, 2000);\n            \x7d);\n        \x7d\n        \n        function toggleSection(id) \x7b\n            const content = document.getElementById(id);\n            const header = event.currentTarget;\n            content.classList.toggle(\x27active\x27);\n            header.classList.toggle(\x27active\x27);\n        \x7d\n        \n        // Charger le thème sauvegardé\n        const savedTheme = localStorage.getItem(\x27theme\x27) || \x27dark\x27;\n        document.documentElement.setAttribute(\x27data-theme\x27, savedTheme);\n    </script>\n</body>\n</html>"
def segSec1 : String :=
  "<section class=\"section\">\n            <h2 class=\"section-title collapsible\" onclick=\"toggleSection(\x27segments\x27)\">⏱️ Segments Détaillés</h2>\n            <div class=\"collapsible-content\" id=\"segments\">\n                "

def segSec2 : String :=
  "\n            </div>\n        </section>"
def graphSec1 : String :=
  "<section class=\"section\">\n            <h2 class=\"section-title collapsible\" onclick=\"toggleSection(\x27graphs\x27)\">📈 Graphiques de Monitoring</h2>\n            <div class=\"collapsible-content\" id=\"graphs\">\n                "

def graphSec2 : String :=
  "\n            </div>\n        </section>"

/-- The `segments_html` accumulation loop (lines 145-152). -/
def segmentsHtml (segments : List Segment) : String :=
  segments.foldl (fun acc seg =>
    acc ++ segItem1 ++ seg.timestamps ++ segItem2 ++ seg.text ++ segItem3) ""

/-- The `graphs_html` accumulation loop (lines 155-162): entries whose
encoding is falsy (`None` or the empty string) are skipped. -/
def graphsHtml (graphImages : List (String × Option String)) : String :=
  graphImages.foldl (fun acc entry =>
    match entry.2 with
    | some img => if img.isEmpty then acc else
        acc ++ graphItem1 ++ img ++ graphItem2 ++ entry.1 ++ graphItem3
    | none => acc) ""

/-- The fixed six-card metrics grid (lines 165-192), with
`metrics.get(key, 'N/A')` lookups. -/
def metricsCards (m : MetricsDict) : String :=
  cards1 ++ m.audio_duration.getD "N/A" ++ cards2 ++ m.processing_time.getD "N/A" ++
    cards3 ++ m.throughput.getD "N/A" ++ cards4 ++ m.cpu_avg.getD "N/A" ++
    cards5 ++ m.memory_avg.getD "N/A" ++ cards6 ++ m.energy_total.getD "N/A" ++ cards7

/-- The conditional segments section (lines 526-531):
`f'''...''' if segments else ''`. -/
def segmentsSection (segments : List Segment) : String :=
  if segments.isEmpty then "" else segSec1 ++ segmentsHtml segments ++ segSec2

/-- The conditional graphs section (lines 534-539):
`f'''...''' if graph_images else ''` — gated on the dict being
non-empty, not on any encoding being present. -/
def graphsSection (graphImages : List (String × Option String)) : String :=
  if graphImages.isEmpty then "" else graphSec1 ++ graphsHtml graphImages ++ graphSec2

/-- Embedding of `_generate_html_template`: the full document as the
concatenation of the literal chunks and the interpolated values, in
source order.  `now` is the formatted `datetime.now()` reading made at
the single template call site (line 483). -/
def generateHtmlTemplate (title transcriptionText : String) (segments : List Segment)
    (metadata : ReportMetadata) (metrics : MetricsDict)
    (graphImages : List (String × Option String)) (now : String) : String :=
  htmlT1 ++ title ++ htmlT2 ++ title ++ htmlT3 ++ now ++ htmlT4 ++
    metricsCards metrics ++ htmlT5 ++ metadata.filename.getD "N/A" ++ htmlT6 ++
    metadata.model.getD "N/A" ++ htmlT7 ++ metadata.language.getD "N/A" ++ htmlT8 ++
    metadata.date.getD "N/A" ++ htmlT9 ++ transcriptionText ++ htmlT10 ++
    segmentsSection segments ++ htmlT11 ++ graphsSection graphImages ++ htmlT12

/-! ## ReportOrchestrator: `generate_report` -/

/-- Embedding of `HTMLTranscriptionReporter.generate_report`.  File
reads arrive as parameters: `txtContent`/`srtContent` are the transcript
and subtitle file contents (`none` = missing or unreadable);
`cpuDf`/`memDf`/`powDf` are the parsed monitoring CSVs (`none` = missing
file or read error, per `_read_metrics_csv`); `cpuImg`/`memImg`/`powImg`
are `none` when the image file does not exist and otherwise carry the
`_image_to_base64` result (`none` inside = encoding failure).
`nowMeta`/`nowTpl` are the two formatted `datetime.now()` readings
(metadata date, template timestamp).  The result is the written HTML
document, or `none` when the function returns `False` and writes
nothing (missing transcript, or an exception such as the `KeyError`
raised on a present-but-column-missing CSV). -/
def generateReport (txtContent srtContent : Option String)
    (cpuDf memDf powDf : Option DataFrame)
    (cpuImg memImg powImg : Option (Option String))
    (audioFilename nowMeta nowTpl : String) : Option String :=
  match txtContent with
  | none => none
  | some text =>
    let segments := match srtContent with
      | some c => parseSrt c
      | none => []
    match computeMetrics cpuDf memDf powDf with
    | Except.error _ => none
    | Except.ok metrics =>
      let graphImages :=
        (match cpuImg with | some e => [("cpu_usage.png", e)] | none => []) ++
        (match memImg with | some e => [("memory_usage.png", e)] | none => []) ++
        (match powImg with | some e => [("power_usage.png", e)] | none => [])
      some (generateHtmlTemplate ("Rapport de Transcription - " ++ audioFilename) text
        segments (buildMetadata audioFilename nowMeta) metrics graphImages nowTpl)

/-! ## SummaryRenderer: `QoSReporter.generate_summary_report` -/

/-- The session-summary dictionary (`metrics_summary`), read with
`.get(key, 0)`: every field optional, `none` defaulting to 0.  Counts
are integers; durations, rates and throughput are floats (embedded as
rationals). -/
structure SessionSummary where
  session_duration_hours : Option ℚ
  total_files : Option Int
  successful_files : Option Int
  failed_files : Option Int
  success_rate : Option ℚ
  total_audio_duration_hours : Option ℚ
  total_processing_time_hours : Option ℚ
  throughput : Option ℚ
  average_processing_time_seconds : Option ℚ
  deriving Repr, DecidableEq

/-- The `"=" * 80` border line. -/
def eq80 : String := String.mk (List.replicate 80 '=')

/-- The `"-" * 80` border line. -/
def dash80 : String := String.mk (List.replicate 80 '-')

/-- The throughput QoS evaluation block (reporter.py lines 206-212):
`if throughput >= 5` / `elif throughput >= 1` / `else`, first match
winning. -/
def throughputEvalLine (t : ℚ) : String :=
  if 5 ≤ t then "✓ Throughput ≥ 5× (modèle small) : ATTEINT\n"
  else if 1 ≤ t then "✓ Throughput ≥ 1× (modèle medium) : ATTEINT\n"
  else "✗ Throughput insuffisant\n"

/-- The success-rate QoS evaluation block (lines 214-218):
`if success_rate >= 0.99`, else the warning line carrying the actual
percentage. -/
def successRateEvalLine (s : ℚ) : String :=
  if mkRat 99 100 ≤ s then "✓ Taux de réussite ≥ 99% : ATTEINT\n"
  else "⚠ Taux de réussite " ++ fmtFixed 1 (qmul s (mkRat 100 1)) ++ "% < 99%\n"

/-- Embedding of the full text written by `generate_summary_report`
(lines 185-220), one `f.write` after another in source order. -/
def summaryReportText (m : SessionSummary) : String :=
  eq80 ++ "\n" ++
  "RAPPORT QoS - STATION TV - TRANSCRIPTION AUDIO\n" ++
  eq80 ++ "\n\n" ++
  "RÉSUMÉ DE LA SESSION\n" ++
  dash80 ++ "\n" ++
  "Durée de la session: " ++ fmtFixed 2 (m.session_duration_hours.getD 0) ++ " heures\n" ++
  "Nombre total de fichiers: " ++ toString (m.total_files.getD 0) ++ "\n" ++
  "Fichiers réussis: " ++ toString (m.successful_files.getD 0) ++ "\n" ++
  "Fichiers échoués: " ++ toString (m.failed_files.getD 0) ++ "\n" ++
  "Taux de réussite: " ++ fmtFixed 1 (qmul (m.success_rate.getD 0) (mkRat 100 1)) ++ "%\n\n" ++
  "PERFORMANCE\n" ++
  dash80 ++ "\n" ++
  "Durée audio totale traitée: " ++ fmtFixed 2 (m.total_audio_duration_hours.getD 0) ++ " heures\n" ++
  "Temps de traitement total: " ++ fmtFixed 2 (m.total_processing_time_hours.getD 0) ++ " heures\n" ++
  "Throughput (débit): " ++ fmtFixed 2 (m.throughput.getD 0) ++ "× temps réel\n" ++
  "Temps moyen par fichier: " ++ fmtFixed 2 (m.average_processing_time_seconds.getD 0) ++ " secondes\n\n" ++
  "OBJECTIFS QoS\n" ++
  dash80 ++ "\n" ++
  throughputEvalLine (m.throughput.getD 0) ++
  successRateEvalLine (m.success_rate.getD 0) ++
  "\n" ++ eq80 ++ "\n"

/-- Embedding of `generate_summary_report`: writes the report text and
returns `True` (the only failure path is an I/O exception on the write,
outside the embedded model). -/
def generateSummaryReport (m : SessionSummary) : Bool × String :=
  (true, summaryReportText m)

/-! ## ChartRenderer: `QoSReporter.plot_cpu_usage` / `plot_memory_usage` -/

/-- What `plot_cpu_usage` draws and saves: the series and the dashed
mean reference line. -/
structure CpuChart where
  values : List ℚ
  meanLine : ℚ
  deriving Repr, DecidableEq

/-- What `plot_memory_usage` draws: the percent panel with its mean
line, and (when both absolute columns are present) the used-vs-total
panel with the capacity line. -/
structure MemChart where
  percentValues : List ℚ
  meanLine : ℚ
  absPanel : Option (List ℚ × ℚ)
  deriving Repr, DecidableEq

/-- Embedding of `plot_cpu_usage` (lines 37-92).  `readResult` is the
`pd.read_csv` outcome (`none` = unreadable/raised).  Returns the boolean
result together with the saved chart (`none` = no file produced: empty
frame, read failure, or the `KeyError` on a missing usage column, all
caught by the handler which returns `False`). -/
def plotCpuUsage (readResult : Option DataFrame) : Bool × Option CpuChart :=
  match readResult with
  | none => (false, none)
  | some df =>
    if df.pdEmpty then (false, none)
    else
      match df.getCol "CPU_Usage_Percent" with
      | none => (false, none)
      | some vs => (true, some ⟨vs, qdiv (qsum vs) (mkRat (vs.length : Int) 1)⟩)

/-- Embedding of `plot_memory_usage` (lines 94-161), same conventions as
`plotCpuUsage`; the absolute-units panel is drawn only when both
`Memory_Used_GB` and `Memory_Total_GB` columns are present. -/
def plotMemoryUsage (readResult : Option DataFrame) : Bool × Option MemChart :=
  match readResult with
  | none => (false, none)
  | some df =>
    if df.pdEmpty then (false, none)
    else
      match df.getCol "Memory_Usage_Percent" with
      | none => (false, none)
      | some vs =>
        let absPanel :=
          match df.getCol "Memory_Used_GB", df.getCol "Memory_Total_GB" with
          | some used, some total => some (used, total.getD 0 0)
          | _, _ => none
        (true, some ⟨vs, qdiv (qsum vs) (mkRat (vs.length : Int) 1), absPanel⟩)

/-! ## String decomposition helpers -/

theorem data_append (a b : String) : (a ++ b).data = a.data ++ b.data := rfl

theorem strAppend_assoc (a b c : String) : (a ++ b) ++ c = a ++ (b ++ c) := by
  apply String.ext
  simp [data_append]

theorem str_eq_empty_iff (s : String) : s = "" ↔ s.data = [] :=
  ⟨fun h => h ▸ rfl, fun h => String.ext h⟩

theorem append_ne_empty_left (a b : String) (ha : a.data ≠ []) : a ++ b ≠ "" := by
  intro h
  rw [str_eq_empty_iff, data_append] at h
  exact ha (List.append_eq_nil.mp h).1

/-! ## Claim C5: rendering is pure modulo the one embedded timestamp -/

/-- Everything of the rendered document that precedes the generation
timestamp: a function of the model only. -/
def htmlBeforeTs (title : String) : String :=
  htmlT1 ++ title ++ htmlT2 ++ title ++ htmlT3

/-- Everything of the rendered document that follows the generation
timestamp: a function of the model only. -/
def htmlAfterTs (transcriptionText : String) (segments : List Segment)
    (metadata : ReportMetadata) (metrics : MetricsDict)
    (graphImages : List (String × Option String)) : String :=
  htmlT4 ++ metricsCards metrics ++ htmlT5 ++ metadata.filename.getD "N/A" ++ htmlT6 ++
    metadata.model.getD "N/A" ++ htmlT7 ++ metadata.language.getD "N/A" ++ htmlT8 ++
    metadata.date.getD "N/A" ++ htmlT9 ++ transcriptionText ++ htmlT10 ++
    segmentsSection segments ++ htmlT11 ++ graphsSection graphImages ++ htmlT12

/-- Claim C5: HTML rendering is a pure, deterministic function of its
input model; for a fixed model the document is the concatenation of a
model-determined preamble, the generation timestamp, and a
model-determined remainder, so two renderings of the identical model are
byte-identical except for the timestamp, which occupies a single
position in the output. -/
theorem generateHtmlTemplate_pure_mod_timestamp
    (title text : String) (segments : List Segment) (md : ReportMetadata)
    (mx : MetricsDict) (gi : List (String × Option String)) (now : String) :
    generateHtmlTemplate title text segments md mx gi now =
      htmlBeforeTs title ++ now ++ htmlAfterTs text segments md mx gi := by
  unfold generateHtmlTemplate htmlBeforeTs htmlAfterTs
  simp [strAppend_assoc]

/-! ## Claim C6: section inclusion gates -/

theorem graphsHtml_skips_falsy (acc : String) (gi : List (String × Option String)) :
    gi.foldl (fun acc entry =>
      match entry.2 with
      | some img => if img.isEmpty then acc else
          acc ++ graphItem1 ++ img ++ graphItem2 ++ entry.1 ++ graphItem3
      | none => acc) acc =
    (gi.filter (fun e => match e.2 with
      | some img => !img.isEmpty
      | none => false)).foldl (fun acc entry =>
      match entry.2 with
      | some img => if img.isEmpty then acc else
          acc ++ graphItem1 ++ img ++ graphItem2 ++ entry.1 ++ graphItem3
      | none => acc) acc := by
  induction gi generalizing acc with
  | nil => rfl
  | cons e rest ih =>
    match e with
    | (name, none) => simpa using ih acc
    | (name, some img) =>
      by_cases himg : img.isEmpty
      · simp [List.filter, himg]
        exact ih acc
      · simp [List.filter, himg]
        exact ih _

theorem str_append3_ne_empty (a b c : String) (ha : a.data ≠ []) : a ++ b ++ c ≠ "" := by
  intro h
  rw [str_eq_empty_iff, data_append, data_append] at h
  exact ha (List.append_eq_nil.mp (List.append_eq_nil.mp h).1).1

/-- Claim C6 (amended): the segments section is present in the rendered
document iff the segment sequence is non-empty; the graphs section is
present iff the embedded-image dict is non-empty — i.e. iff at least one
candidate image file existed, whether or not any encoding succeeded —
and entries with an absent (or empty) encoding are skipped individually,
so a document whose every candidate image failed to encode still carries
a graphs section, with no image in it. -/
theorem sections_presence (segments : List Segment) (gi : List (String × Option String)) :
    (segmentsSection segments = "" ↔ segments = []) ∧
    (graphsSection gi = "" ↔ gi = []) ∧
    graphsHtml gi = graphsHtml (gi.filter (fun e => match e.2 with
      | some img => !img.isEmpty
      | none => false)) := by
  refine ⟨?_, ?_, ?_⟩
  · constructor
    · intro hc
      by_cases h : segments.isEmpty
      · exact List.isEmpty_iff.mp h
      · rw [segmentsSection, if_neg h] at hc
        exact absurd hc (str_append3_ne_empty segSec1 _ _ (by decide))
    · intro hc
      subst hc
      rfl
  · constructor
    · intro hc
      by_cases h : gi.isEmpty
      · exact List.isEmpty_iff.mp h
      · rw [graphsSection, if_neg h] at hc
        exact absurd hc (str_append3_ne_empty graphSec1 _ _ (by decide))
    · intro hc
      subst hc
      rfl
  · unfold graphsHtml
    exact graphsHtml_skips_falsy "" gi

theorem strAppend_left_cancel (a b c : String) (h : a ++ b = a ++ c) : b = c := by
  apply String.ext
  have hd := congrArg String.data h
  rw [data_append, data_append] at hd
  exact List.append_cancel_left hd

theorem strAppend_right_cancel (a b c : String) (h : a ++ c = b ++ c) : a = b := by
  apply String.ext
  have hd := congrArg String.data h
  rw [data_append, data_append] at hd
  exact List.append_cancel_right hd

/-- Claim C6 is false as frozen: a model whose only candidate image
failed to encode (`("cpu_usage.png", none)`) still gets a non-empty
graphs section, even though the rendered image set is empty, and the
rendered document differs from the document of the same model with no
candidate images — the claim's "no graphs section" case does not hold. -/
theorem graphs_section_shown_without_images :
    graphsSection [("cpu_usage.png", none)] ≠ "" ∧
    graphsHtml [("cpu_usage.png", none)] = "" ∧
    generateHtmlTemplate "t" "x" [] ⟨none, none, none, none⟩
        ⟨none, none, none, none, none, none⟩ [("cpu_usage.png", none)] "n" ≠
      generateHtmlTemplate "t" "x" [] ⟨none, none, none, none⟩
        ⟨none, none, none, none, none, none⟩ [] "n" := by
  have hne : graphsSection [("cpu_usage.png", none)] ≠ "" := by
    rw [show graphsSection [("cpu_usage.png", none)] =
      graphSec1 ++ graphsHtml [("cpu_usage.png", none)] ++ graphSec2 from rfl]
    exact str_append3_ne_empty graphSec1 _ _ (by decide)
  refine ⟨hne, rfl, ?_⟩
  intro h
  unfold generateHtmlTemplate at h
  replace h := strAppend_right_cancel _ _ _ h
  replace h := strAppend_left_cancel _ _ _ h
  rw [show graphsSection ([] : List (String × Option String)) = "" from rfl] at h
  exact hne h

/-! ## Claim C7: the fixed six-card metrics grid -/

/-- The grid wrapper opening shared by the card markup. -/
def gridOpen : String := "\n        <div class=\"metrics-grid\">"

/-- The markup that precedes each card label. -/
def cardLabelOpen : String :=
  "\n            <div class=\"metric-card\">\n                <div class=\"metric-label\">"

/-- The markup between a card's label and its value. -/
def cardValueOpen : String := "</div>\n                <div class=\"metric-value\">"

/-- The markup that closes each card. -/
def cardClose : String := "</div>\n            </div>"

/-- The grid wrapper closing. -/
def gridClose : String := "\n        </div>\n        "

/-- One metric card rendered from a (label, value) pair. -/
def renderCard (p : String × String) : String :=
  cardLabelOpen ++ p.1 ++ cardValueOpen ++ p.2 ++ cardClose

/-- A list of cards rendered in order. -/
def renderCards (l : List (String × String)) : String :=
  l.foldl (fun acc p => acc ++ renderCard p) ""

/-- The six (label, value) pairs of the metrics grid, in template order,
each value defaulting to the `'N/A'` marker. -/
def metricCardSpecs (m : MetricsDict) : List (String × String) :=
  [("Durée Audio", m.audio_duration.getD "N/A"),
   ("Temps de Traitement", m.processing_time.getD "N/A"),
   ("Throughput", m.throughput.getD "N/A"),
   ("CPU Moyen", m.cpu_avg.getD "N/A"),
   ("RAM Moyenne", m.memory_avg.getD "N/A"),
   ("Énergie Totale", m.energy_total.getD "N/A")]

theorem empty_strAppend (s : String) : "" ++ s = s := rfl

set_option maxRecDepth 4096 in
theorem cards1_eq : cards1 = gridOpen ++ cardLabelOpen ++ "Durée Audio" ++ cardValueOpen := by
  decide

set_option maxRecDepth 4096 in
theorem cards2_eq : cards2 = cardClose ++ cardLabelOpen ++ "Temps de Traitement" ++ cardValueOpen := by
  decide

set_option maxRecDepth 4096 in
theorem cards3_eq : cards3 = cardClose ++ cardLabelOpen ++ "Throughput" ++ cardValueOpen := by
  decide

set_option maxRecDepth 4096 in
theorem cards4_eq : cards4 = cardClose ++ cardLabelOpen ++ "CPU Moyen" ++ cardValueOpen := by
  decide

set_option maxRecDepth 4096 in
theorem cards5_eq : cards5 = cardClose ++ cardLabelOpen ++ "RAM Moyenne" ++ cardValueOpen := by
  decide

set_option maxRecDepth 4096 in
theorem cards6_eq : cards6 = cardClose ++ cardLabelOpen ++ "Énergie Totale" ++ cardValueOpen := by
  decide

set_option maxRecDepth 4096 in
theorem cards7_eq : cards7 = cardClose ++ gridClose := by
  decide

/-- Claim C7: the rendered metrics block is always exactly the fixed
six-card grid, in the order audio duration, processing time,
throughput, CPU average, memory average, total energy; a metric absent
from the input renders as the non-empty `'N/A'` marker, never as a
blank value. -/
theorem metricsCards_fixed_grid (m : MetricsDict) :
    metricsCards m = gridOpen ++ renderCards (metricCardSpecs m) ++ gridClose ∧
    (metricCardSpecs m).map Prod.fst =
      ["Durée Audio", "Temps de Traitement", "Throughput", "CPU Moyen",
       "RAM Moyenne", "Énergie Totale"] ∧
    (metricCardSpecs m).length = 6 ∧
    ("N/A" : String) ≠ "" ∧
    (m.audio_duration = none → ((metricCardSpecs m).map Prod.snd).getD 0 "" = "N/A") ∧
    (m.processing_time = none → ((metricCardSpecs m).map Prod.snd).getD 1 "" = "N/A") ∧
    (m.throughput = none → ((metricCardSpecs m).map Prod.snd).getD 2 "" = "N/A") ∧
    (m.cpu_avg = none → ((metricCardSpecs m).map Prod.snd).getD 3 "" = "N/A") ∧
    (m.memory_avg = none → ((metricCardSpecs m).map Prod.snd).getD 4 "" = "N/A") ∧
    (m.energy_total = none → ((metricCardSpecs m).map Prod.snd).getD 5 "" = "N/A") := by
  refine ⟨?_, rfl, rfl, by decide, ?_, ?_, ?_, ?_, ?_, ?_⟩
  · unfold metricsCards renderCards metricCardSpecs renderCard
    simp only [List.foldl, empty_strAppend]
    rw [cards1_eq, cards2_eq, cards3_eq, cards4_eq, cards5_eq, cards6_eq, cards7_eq]
    simp [strAppend_assoc]
  all_goals intro h
  all_goals simp [metricCardSpecs, h]

/-- Witness for Claim C7 at the all-absent metrics dictionary: the CPU
card of the grid carries the `'N/A'` marker. -/
theorem metricsCards_fixed_grid_witness :
    (⟨none, none, none, none, none, none⟩ : MetricsDict).cpu_avg = none ∧
    ((metricCardSpecs ⟨none, none, none, none, none, none⟩).map Prod.snd).getD 3 "" = "N/A" :=
  ⟨rfl, (metricsCards_fixed_grid ⟨none, none, none, none, none, none⟩).2.2.2.2.2.2.2.2.1 rfl⟩

/-! ## Claim C9: hard-coded metadata in the rendered report -/

/-- Claim C9: every successful report generation renders a metadata grid
whose model slot is the constant `'small'` and whose language slot is
the constant `'fr'`, regardless of the transcription inputs, and whose
date slot is the formatted wall-clock reading (`nowMeta`) taken at
generation time rather than any value read from an input file. -/
theorem generateReport_metadata_constants
    (txt srt : Option String) (cpuDf memDf powDf : Option DataFrame)
    (cpuImg memImg powImg : Option (Option String))
    (fn nowMeta nowTpl html : String)
    (h : generateReport txt srt cpuDf memDf powDf cpuImg memImg powImg fn nowMeta nowTpl =
      some html) :
    (buildMetadata fn nowMeta).model = some "small" ∧
    (buildMetadata fn nowMeta).language = some "fr" ∧
    (buildMetadata fn nowMeta).date = some nowMeta ∧
    ∃ pre post, html =
      pre ++ ("small" ++ (htmlT7 ++ ("fr" ++ (htmlT8 ++ (nowMeta ++ post))))) := by
  refine ⟨rfl, rfl, rfl, ?_⟩
  unfold generateReport at h
  cases txt with
  | none => exact absurd h (by simp)
  | some text =>
    cases hm : computeMetrics cpuDf memDf powDf with
    | error e => rw [hm] at h; exact absurd h (by simp)
    | ok metrics =>
      rw [hm] at h
      simp only [Option.some.injEq] at h
      have hfinal : ∀ (segs : List Segment) (gimgs : List (String × Option String)),
          generateHtmlTemplate ("Rapport de Transcription - " ++ fn) text segs
            (buildMetadata fn nowMeta) metrics gimgs nowTpl =
          (htmlT1 ++ ("Rapport de Transcription - " ++ fn) ++ htmlT2 ++
            ("Rapport de Transcription - " ++ fn) ++ htmlT3 ++ nowTpl ++ htmlT4 ++
            metricsCards metrics ++ htmlT5 ++ fn ++ htmlT6) ++
          ("small" ++ (htmlT7 ++ ("fr" ++ (htmlT8 ++ (nowMeta ++
            (htmlT9 ++ text ++ htmlT10 ++ segmentsSection segs ++ htmlT11 ++
              graphsSection gimgs ++ htmlT12)))))) := by
        intro segs gimgs
        unfold generateHtmlTemplate buildMetadata
        simp [strAppend_assoc]
      exact ⟨_, _, h ▸ hfinal _ _⟩

/-- Witness for Claim C9: a concrete successful invocation (transcript
present, no other inputs) whose document carries the constant model and
language and the metadata clock reading. -/
theorem generateReport_metadata_constants_witness :
    (buildMetadata "audio" "01/01/2025 10:00:00").model = some "small" ∧
    (buildMetadata "audio" "01/01/2025 10:00:00").language = some "fr" ∧
    (buildMetadata "audio" "01/01/2025 10:00:00").date = some "01/01/2025 10:00:00" ∧
    ∃ pre post,
      generateHtmlTemplate ("Rapport de Transcription - " ++ "audio") "Bonjour le monde" []
        (buildMetadata "audio" "01/01/2025 10:00:00")
        ⟨some "N/A", some "N/A", some "N/A", some "N/A", some "N/A", some "N/A"⟩ [] "ts" =
      pre ++ ("small" ++ (htmlT7 ++ ("fr" ++ (htmlT8 ++ ("01/01/2025 10:00:00" ++ post))))) :=
  generateReport_metadata_constants (some "Bonjour le monde") none none none none
    none none none "audio" "01/01/2025 10:00:00" "ts" _ rfl

/-! ## Claims C1 and C4: missing-column behaviour of the metrics dict -/

/-- Claim C1 is violated by the code: a resource-log CSV that exists and
is non-empty but lacks its expected column makes the metrics-dict
construction raise `KeyError` (`Except.error`), which the outer handler
of `generate_report` turns into overall failure (`None` here, `False`
and no report in the code) — no field of any kind is produced, so the
missing column does abort aggregation of the other fields.  By
contrast, a missing CSV file degrades to `'N/A'` with the report still
produced. -/
theorem missing_column_aborts_report :
    computeMetrics (some ⟨[("Timestamp", [1]), ("Other", [2])]⟩) none none =
      Except.error () ∧
    generateReport (some "Bonjour le monde") none
      (some ⟨[("Timestamp", [1]), ("Other", [2])]⟩) none none
      none none none "audio" "d" "t" = none ∧
    computeMetrics none none none =
      Except.ok ⟨some "N/A", some "N/A", some "N/A", some "N/A", some "N/A", some "N/A"⟩ ∧
    (generateReport (some "Bonjour le monde") none none none none
      none none none "audio" "d" "t").isSome = true :=
  ⟨rfl, rfl, rfl, rfl⟩

/-- Claim C4 is violated by the code: with a valid CPU log the
`cpu_avg` field is the formatted mean, but as soon as another
resource-log CSV (here the memory log) exists, is non-empty and lacks
its column, the whole metrics construction raises and no
MetricsSnapshot exists at all — the `cpu_avg` field is then neither a
formatted value nor the `'N/A'` marker, so the claimed
"present-iff/never-omitted" invariant fails. -/
theorem metrics_field_iff_violated :
    computeMetrics (some ⟨[("CPU_Usage_Percent", [10, 20, 30])]⟩) none none =
      Except.ok ⟨some "N/A", some "N/A", some "N/A", some "20.0%", some "N/A", some "N/A"⟩ ∧
    computeMetrics (some ⟨[("CPU_Usage_Percent", [10, 20, 30])]⟩)
      (some ⟨[("Timestamp", [1])]⟩) none = Except.error () ∧
    generateReport (some "Bonjour le monde") none
      (some ⟨[("CPU_Usage_Percent", [10, 20, 30])]⟩)
      (some ⟨[("Timestamp", [1])]⟩) none none none none "audio" "d" "t" = none :=
  ⟨rfl, rfl, rfl⟩

/-! ## Claim C3: the QoS threshold evaluations -/

/-- Everything `generate_summary_report` writes before the two QoS
objective lines. -/
def summaryHead (m : SessionSummary) : String :=
  eq80 ++ "\n" ++
  "RAPPORT QoS - STATION TV - TRANSCRIPTION AUDIO\n" ++
  eq80 ++ "\n\n" ++
  "RÉSUMÉ DE LA SESSION\n" ++
  dash80 ++ "\n" ++
  "Durée de la session: " ++ fmtFixed 2 (m.session_duration_hours.getD 0) ++ " heures\n" ++
  "Nombre total de fichiers: " ++ toString (m.total_files.getD 0) ++ "\n" ++
  "Fichiers réussis: " ++ toString (m.successful_files.getD 0) ++ "\n" ++
  "Fichiers échoués: " ++ toString (m.failed_files.getD 0) ++ "\n" ++
  "Taux de réussite: " ++ fmtFixed 1 (qmul (m.success_rate.getD 0) (mkRat 100 1)) ++ "%\n\n" ++
  "PERFORMANCE\n" ++
  dash80 ++ "\n" ++
  "Durée audio totale traitée: " ++ fmtFixed 2 (m.total_audio_duration_hours.getD 0) ++ " heures\n" ++
  "Temps de traitement total: " ++ fmtFixed 2 (m.total_processing_time_hours.getD 0) ++ " heures\n" ++
  "Throughput (débit): " ++ fmtFixed 2 (m.throughput.getD 0) ++ "× temps réel\n" ++
  "Temps moyen par fichier: " ++ fmtFixed 2 (m.average_processing_time_seconds.getD 0) ++ " secondes\n\n" ++
  "OBJECTIFS QoS\n" ++
  dash80 ++ "\n"

/-- Everything `generate_summary_report` writes after the two QoS
objective lines. -/
def summaryTail : String := "\n" ++ eq80 ++ "\n"

/-- Shared factoring of the summary-report text: the head, then the
throughput evaluation line, then the success-rate evaluation line, then
the tail — both evaluations are always present, each exactly once. -/
theorem summaryReportText_factored (m : SessionSummary) :
    summaryReportText m =
      summaryHead m ++ (throughputEvalLine (m.throughput.getD 0) ++
        (successRateEvalLine (m.success_rate.getD 0) ++ summaryTail)) := by
  unfold summaryReportText summaryHead summaryTail
  simp [strAppend_assoc]

/-- Claim C3: the throughput QoS evaluation is decided top-to-bottom
with first match winning (≥ 5: target met, fast tier `modèle small`;
else ≥ 1: target met, slow tier `modèle medium`; else not met), mapping
0.5, 1.0, 4.9, 5.0, 7.0 to not-met, slow-tier, slow-tier, fast-tier,
fast-tier; independently the success rate evaluates to target-met
exactly when it is ≥ 0.99 and otherwise reports the actual percentage;
and both evaluations always appear in the report, one after the
other. -/
theorem qos_threshold_evaluation (m : SessionSummary) :
    throughputEvalLine (mkRat 1 2) = "✗ Throughput insuffisant\n" ∧
    throughputEvalLine 1 = "✓ Throughput ≥ 1× (modèle medium) : ATTEINT\n" ∧
    throughputEvalLine (mkRat 49 10) = "✓ Throughput ≥ 1× (modèle medium) : ATTEINT\n" ∧
    throughputEvalLine 5 = "✓ Throughput ≥ 5× (modèle small) : ATTEINT\n" ∧
    throughputEvalLine 7 = "✓ Throughput ≥ 5× (modèle small) : ATTEINT\n" ∧
    (∀ t : ℚ, 5 ≤ t →
      throughputEvalLine t = "✓ Throughput ≥ 5× (modèle small) : ATTEINT\n") ∧
    (∀ t : ℚ, 1 ≤ t → t < 5 →
      throughputEvalLine t = "✓ Throughput ≥ 1× (modèle medium) : ATTEINT\n") ∧
    (∀ t : ℚ, t < 1 → throughputEvalLine t = "✗ Throughput insuffisant\n") ∧
    (∀ s : ℚ, successRateEvalLine s = "✓ Taux de réussite ≥ 99% : ATTEINT\n" ↔
      mkRat 99 100 ≤ s) ∧
    (∀ s : ℚ, ¬ mkRat 99 100 ≤ s → successRateEvalLine s =
      "⚠ Taux de réussite " ++ fmtFixed 1 (qmul s (mkRat 100 1)) ++ "% < 99%\n") ∧
    summaryReportText m =
      summaryHead m ++ (throughputEvalLine (m.throughput.getD 0) ++
        (successRateEvalLine (m.success_rate.getD 0) ++ summaryTail)) := by
  refine ⟨by decide, by decide, by decide, by decide, by decide, ?_, ?_, ?_, ?_, ?_,
    summaryReportText_factored m⟩
  · intro t ht
    rw [throughputEvalLine, if_pos ht]
  · intro t ht1 ht5
    rw [throughputEvalLine, if_neg (not_le.mpr ht5), if_pos ht1]
  · intro t ht
    rw [throughputEvalLine, if_neg (not_le.mpr (lt_trans ht (by norm_num))),
      if_neg (not_le.mpr ht)]
  · intro s
    constructor
    · intro hs
      by_contra hc
      rw [successRateEvalLine, if_neg hc] at hs
      have hhead := congrArg (fun str => str.data.head?) hs
      simp only at hhead
      rw [data_append, data_append, List.head?_append, List.head?_append,
        show ("⚠ Taux de réussite ".data).head? = some '⚠' from rfl,
        show ("✓ Taux de réussite ≥ 99% : ATTEINT\n".data).head? = some '✓' from rfl] at hhead
      simp [Option.or] at hhead
    · intro hs
      rw [successRateEvalLine, if_pos hs]
  · intro s hs
    rw [successRateEvalLine, if_neg hs]

/-- Witness for Claim C3 at throughput 7 and success rate 0.985. -/
theorem qos_threshold_evaluation_witness :
    (5 : ℚ) ≤ 7 ∧
    throughputEvalLine 7 = "✓ Throughput ≥ 5× (modèle small) : ATTEINT\n" ∧
    ¬ mkRat 99 100 ≤ mkRat 985 1000 ∧
    successRateEvalLine (mkRat 985 1000) =
      "⚠ Taux de réussite " ++ fmtFixed 1 (qmul (mkRat 985 1000) (mkRat 100 1)) ++ "% < 99%\n" :=
  ⟨by decide,
    (qos_threshold_evaluation ⟨none, none, none, none, none, none, none, none, none⟩).2.2.2.2.2.1
      7 (by decide),
    by decide,
    (qos_threshold_evaluation
      ⟨none, none, none, none, none, none, none, none, none⟩).2.2.2.2.2.2.2.2.2.1
      (mkRat 985 1000) (by decide)⟩

/-! ## Claim C10: missing summary keys default to zero -/

/-- The summary dictionary with every missing key replaced by 0, as the
report's `.get(key, 0)` lookups do. -/
def defaultedSummary (m : SessionSummary) : SessionSummary :=
  ⟨some (m.session_duration_hours.getD 0), some (m.total_files.getD 0),
   some (m.successful_files.getD 0), some (m.failed_files.getD 0),
   some (m.success_rate.getD 0), some (m.total_audio_duration_hours.getD 0),
   some (m.total_processing_time_hours.getD 0), some (m.throughput.getD 0),
   some (m.average_processing_time_seconds.getD 0)⟩

/-- Claim C10: for every input dictionary the summary-report generator
substitutes 0 for each missing key (the report equals the report of the
zero-defaulted dictionary) and returns success; on the empty dictionary
the report is complete, prints the absent quantities as zero, and both
QoS objectives evaluate as not met. -/
theorem summary_missing_keys_default_to_zero (m : SessionSummary) :
    generateSummaryReport m = generateSummaryReport (defaultedSummary m) ∧
    (generateSummaryReport m).1 = true ∧
    (generateSummaryReport ⟨none, none, none, none, none, none, none, none, none⟩).2 =
      summaryHead ⟨none, none, none, none, none, none, none, none, none⟩ ++
        ("✗ Throughput insuffisant\n" ++
          ("⚠ Taux de réussite 0.0% < 99%\n" ++ summaryTail)) := by
  refine ⟨?_, rfl, ?_⟩
  · unfold generateSummaryReport summaryReportText defaultedSummary
    simp
  · rw [show (generateSummaryReport
        ⟨none, none, none, none, none, none, none, none, none⟩).2 =
      summaryReportText ⟨none, none, none, none, none, none, none, none, none⟩ from rfl]
    rw [summaryReportText_factored]
    rw [show throughputEvalLine ((none : Option ℚ).getD 0) =
      "✗ Throughput insuffisant\n" from by decide]
    rw [show successRateEvalLine ((none : Option ℚ).getD 0) =
      "⚠ Taux de réussite 0.0% < 99%\n" from by decide]

/-! ## Claim C8: chart rendering on an empty input series -/

/-- Claim C8: a chart-rendering call (CPU or memory) whose input series
is empty — the resource log was unreadable (`none`) or parsed with no
data rows (`pdEmpty`) — produces no output image and returns the
failure signal `False`; the condition is handled, never raised past the
component boundary. -/
theorem plot_empty_series_no_output (r : Option DataFrame)
    (h : r = none ∨ ∃ df, r = some df ∧ df.pdEmpty = true) :
    plotCpuUsage r = (false, none) ∧ plotMemoryUsage r = (false, none) := by
  rcases h with rfl | ⟨df, rfl, hdf⟩
  · exact ⟨rfl, rfl⟩
  · constructor
    · rw [plotCpuUsage.eq_def]
      simp [hdf]
    · rw [plotMemoryUsage.eq_def]
      simp [hdf]

/-- Witness for Claim C8 at a header-only CSV (column present, zero
data rows). -/
theorem plot_empty_series_no_output_witness :
    ((some ⟨[("CPU_Usage_Percent", [])]⟩ : Option DataFrame) = none ∨
      ∃ df, (some ⟨[("CPU_Usage_Percent", [])]⟩ : Option DataFrame) = some df ∧
        df.pdEmpty = true) ∧
    plotCpuUsage (some ⟨[("CPU_Usage_Percent", [])]⟩) = (false, none) ∧
    plotMemoryUsage (some ⟨[("CPU_Usage_Percent", [])]⟩) = (false, none) :=
  ⟨Or.inr ⟨⟨[("CPU_Usage_Percent", [])]⟩, rfl, by decide⟩,
    plot_empty_series_no_output (some ⟨[("CPU_Usage_Percent", [])]⟩)
      (Or.inr ⟨⟨[("CPU_Usage_Percent", [])]⟩, rfl, by decide⟩)⟩
